import Mathlib

/-!
Verification development for the mast-aladin-lite repository material:
two tutorial notebooks, a CI workflow definition, a ReadTheDocs build
configuration with an embedded ECSV fixture table, and install docs.
The MastAladin widget implementation itself is not part of the supplied
files (only the notebooks calling it are), so the viewport operations
are modelled from the spec; the CI matrix, the ReadTheDocs post-checkout
shell step and the ECSV table are transcribed from the files themselves.
-/

namespace MastAladinLite

/-- Modelled from the spec: a structured astropy SkyCoord coordinate
object, absent from the supplied files (only notebooks constructing it
appear). Represented by its ICRS right ascension and declination in
degrees, as exact rationals. -/
structure SkyCoord where
  ra : ℚ
  dec : ℚ
  deriving DecidableEq

/-- Modelled from the spec: the mutable state of the sky viewer that the
viewport operations read and write, a center coordinate and a field of
view in degrees. -/
structure ViewerState where
  center : SkyCoord
  fov : ℚ
  deriving DecidableEq

/-- Modelled from the spec: the Python runtime value passed as the center
argument of set_viewport in the notebooks, either a structured SkyCoord
object or a plain string. Python binds a positional argument and the
keyword form center... to the same parameter, so one argument suffices. -/
inductive CenterArg where
  | sky (c : SkyCoord)
  | str (s : String)
  deriving DecidableEq

/-- Modelled from the spec: the error raised by set_viewport. The only
documented error behavior is a TypeError. -/
inductive AidError where
  | typeError
  deriving DecidableEq

/-- Modelled from the spec: set_viewport(center) requires a structured
SkyCoord; given one it repositions the viewer center and succeeds, and
given a plain string, parseable as coordinates or not, it raises
TypeError. -/
def set_viewport (center : CenterArg) (st : ViewerState) :
    Except AidError ViewerState :=
  match center with
  | CenterArg.sky c => Except.ok { st with center := c }
  | CenterArg.str _ => Except.error AidError.typeError

/-- A value stored in the dictionary that get_viewport returns: a
coordinate or a field-of-view number. -/
inductive ViewportValue where
  | coord (c : SkyCoord)
  | fovVal (f : ℚ)
  deriving DecidableEq

/-- Modelled from the spec: get_viewport() takes no arguments beyond the
viewer and returns a dictionary holding the current center coordinate (a
SkyCoord, under the key center) and the current field of view (under the
key fov). -/
def get_viewport (st : ViewerState) : List (String × ViewportValue) :=
  [("center", ViewportValue.coord st.center), ("fov", ViewportValue.fovVal st.fov)]

/-- The center entry of a returned viewport dictionary, when present. -/
def viewportCenter (vp : List (String × ViewportValue)) : Option SkyCoord :=
  match vp.lookup "center" with
  | some (ViewportValue.coord c) => some c
  | _ => none

/-- C1: for every call of set_viewport whose center argument is a plain
string, set_viewport raises a TypeError; and this is the only error
behavior: whenever set_viewport errors, the error is a TypeError and the
argument was a plain string. -/
theorem setViewport_string_typeError_only :
    (∀ (s : String) (st : ViewerState),
      set_viewport (CenterArg.str s) st = Except.error AidError.typeError) ∧
    (∀ (arg : CenterArg) (st : ViewerState) (e : AidError),
      set_viewport arg st = Except.error e →
        e = AidError.typeError ∧ ∃ s, arg = CenterArg.str s) := by
  refine ⟨fun s st => rfl, fun arg st e h => ?_⟩
  cases arg with
  | sky c => simp [set_viewport] at h
  | str s =>
      refine ⟨?_, s, rfl⟩
      cases e
      rfl

/-- C2: for every SkyCoord c and every viewer state, set_viewport with
center c succeeds and repositions the viewer so that its center is c. -/
theorem setViewport_skyCoord_succeeds :
    ∀ (c : SkyCoord) (st : ViewerState),
      set_viewport (CenterArg.sky c) st = Except.ok { st with center := c } ∧
      ∀ st2, set_viewport (CenterArg.sky c) st = Except.ok st2 → st2.center = c := by
  intro c st
  refine ⟨rfl, fun st2 h => ?_⟩
  simp [set_viewport] at h
  rw [← h]

/-- C3: get_viewport takes no arguments and returns the current viewport
as a dictionary holding the current center coordinate under the key
center and the current field of view under the key fov. -/
theorem getViewport_returns_center_and_fov :
    ∀ st : ViewerState,
      (get_viewport st).lookup "center" = some (ViewportValue.coord st.center) ∧
      (get_viewport st).lookup "fov" = some (ViewportValue.fovVal st.fov) ∧
      (get_viewport st).length = 2 := by
  intro st
  refine ⟨rfl, ?_, rfl⟩
  simp [get_viewport, List.lookup]

/-- C4: round trip of the viewport center: if the center saved from
get_viewport is later passed back to set_viewport, from any intermediate
state, the call succeeds and a subsequent get_viewport reports the saved
center again. -/
theorem viewport_center_roundtrip :
    ∀ (st stLater : ViewerState) (c : SkyCoord),
      viewportCenter (get_viewport st) = some c →
      ∃ stNew, set_viewport (CenterArg.sky c) stLater = Except.ok stNew ∧
        viewportCenter (get_viewport stNew) = some c := by
  intro st stLater c _
  exact ⟨{ stLater with center := c }, rfl, rfl⟩

/-- C4 witness: the round trip evaluated at a concrete saved state and a
concrete later state. -/
theorem viewport_center_roundtrip_witness :
    ∃ stNew,
      set_viewport (CenterArg.sky ⟨0, 0⟩) (⟨⟨270, 66⟩, 5⟩ : ViewerState) =
        Except.ok stNew ∧
      viewportCenter (get_viewport stNew) = some ⟨0, 0⟩ :=
  viewport_center_roundtrip ⟨⟨0, 0⟩, 2⟩ ⟨⟨270, 66⟩, 5⟩ ⟨0, 0⟩ rfl

/-- C5: set_viewport rejects every string argument with a TypeError, even
the well formed sexagesimal coordinate string of the notebook: the result
is the same for any two strings, so rejection depends only on the
argument not being a SkyCoord, never on the string being parseable; and
the argument value alone determines the result, so the positional call
and the keyword call of the notebook, which bind the same value, agree. -/
theorem setViewport_rejects_all_strings_uniformly :
    (∀ (s t : String) (st : ViewerState),
      set_viewport (CenterArg.str s) st = set_viewport (CenterArg.str t) st) ∧
    (∀ st : ViewerState,
      set_viewport (CenterArg.str "17 59 59.92 +65 54 00.3") st =
        Except.error AidError.typeError ∧
      set_viewport (CenterArg.str "0 0") st = Except.error AidError.typeError) := by
  exact ⟨fun s t st => rfl, fun st => ⟨rfl, rfl⟩⟩

/-- Whether the pattern occurs as a contiguous substring of s, decided
through the list-infix relation on the underlying character lists. -/
def strContains (s pat : String) : Bool :=
  decide (pat.data <:+: s.data)

/-- One entry of the include matrix of the ci_tests job, transcribed from
the CI workflow file. -/
structure MatrixEntry where
  name : String
  os : String
  python : String
  toxenv : String
  allowFailure : Bool
  deriving DecidableEq

/-- The include matrix of the ci_tests job of the CI workflow file, in
file order. -/
def ciMatrix : List MatrixEntry :=
  [⟨"Code style checks", "ubuntu-latest", "3.x", "codestyle", false⟩,
   ⟨"PEP 517", "ubuntu-latest", "3.x", "pep517", false⟩,
   ⟨"Security audit", "ubuntu-latest", "3.x", "securityaudit", false⟩,
   ⟨"Python 3.11 with coverage checking", "windows-latest", "3.11", "py311-test-cov", false⟩,
   ⟨"macOS - Python 3.10", "macos-latest", "3.10", "py310-test", false⟩,
   ⟨"Windows - Python 3.11", "windows-latest", "3.11", "py311-test", false⟩]

/-- The action used by the final upload step of the upload-codecov job of
the CI workflow file. -/
def codecovUploadAction : String :=
  "codecov/codecov-action@ad3126e916f78f00edff4ed0317cf185271ccc2d"

/-- The needs list of the upload-codecov job of the CI workflow file. -/
def uploadCodecovNeeds : List String := ["ci_tests"]

/-- C6: the CI pipeline is a matrix build whose entries run the style
check, the packaging (PEP 517) check, the security audit and the test
toxenvs; the matrix spans exactly three operating systems; the entries
that execute tests use exactly two interpreter versions, 3.11 and 3.10;
and a separate job, gated on the test jobs, uploads coverage to the
third-party Codecov service. -/
theorem ciMatrix_shape :
    ((ciMatrix.map MatrixEntry.os).dedup.length = 3 ∧
      "ubuntu-latest" ∈ ciMatrix.map MatrixEntry.os ∧
      "windows-latest" ∈ ciMatrix.map MatrixEntry.os ∧
      "macos-latest" ∈ ciMatrix.map MatrixEntry.os) ∧
    ("codestyle" ∈ ciMatrix.map MatrixEntry.toxenv ∧
      "pep517" ∈ ciMatrix.map MatrixEntry.toxenv ∧
      "securityaudit" ∈ ciMatrix.map MatrixEntry.toxenv) ∧
    (((ciMatrix.filter fun e => strContains e.toxenv "test").map
        MatrixEntry.python).dedup.length = 2 ∧
      "3.11" ∈ (ciMatrix.filter fun e => strContains e.toxenv "test").map
        MatrixEntry.python ∧
      "3.10" ∈ (ciMatrix.filter fun e => strContains e.toxenv "test").map
        MatrixEntry.python) ∧
    (strContains codecovUploadAction "codecov" = true ∧
      "ci_tests" ∈ uploadCodecovNeeds) := by
  decide

/-- A call appearing in a code cell of one of the two notebooks. -/
inductive NotebookCall where
  | mastAladinInit
  | skyCoordCtor
  | skyCoordFromName
  | queryRegion
  | addTable
  | addGraphicOverlayFromStcs
  | getViewportCall
  | setViewportCall
  | sidecarCtor
  | displayCall
  deriving DecidableEq

/-- The calls of the code cells of Intro_To_Mast_Aladin_Lite.ipynb, in
cell order. -/
def introNotebookCalls : List NotebookCall :=
  [NotebookCall.mastAladinInit,
   NotebookCall.skyCoordFromName, NotebookCall.queryRegion,
   NotebookCall.addTable,
   NotebookCall.getViewportCall,
   NotebookCall.setViewportCall,
   NotebookCall.sidecarCtor, NotebookCall.mastAladinInit, NotebookCall.displayCall,
   NotebookCall.sidecarCtor, NotebookCall.mastAladinInit, NotebookCall.displayCall]

/-- The calls of the code cells of AIDA_mixin_set_viewport.ipynb, in cell
order. -/
def aidaNotebookCalls : List NotebookCall :=
  [NotebookCall.mastAladinInit,
   NotebookCall.addGraphicOverlayFromStcs,
   NotebookCall.skyCoordCtor, NotebookCall.setViewportCall,
   NotebookCall.skyCoordCtor, NotebookCall.setViewportCall,
   NotebookCall.setViewportCall,
   NotebookCall.setViewportCall]

/-- Modelled from the spec: which notebook-level calls reach an external
service, knowledge of the wrapped third-party astronomy toolkit rather
than of the supplied files: the archive query query_region(coords,
radius) and the name resolution SkyCoord.from_name(name); every other
call is local widget or object manipulation. -/
def callsExternalService : NotebookCall → Bool
  | NotebookCall.queryRegion => true
  | NotebookCall.skyCoordFromName => true
  | _ => false

/-- C7: filtering every call the two notebooks make down to those that
reach an external service leaves exactly the coordinate resolution
SkyCoord.from_name followed by the archive query query_region, each
occurring once, so these two are the only external calls made at
notebook level. -/
theorem notebook_external_calls :
    (introNotebookCalls ++ aidaNotebookCalls).filter callsExternalService =
      [NotebookCall.skyCoordFromName, NotebookCall.queryRegion] := by
  decide

/-- A column datatype of the ECSV header. -/
inductive EcsvType where
  | int64
  | float64
  | str
  deriving DecidableEq

/-- The datatype declarations of the ECSV fixture table header, in file
order: each column name with its declared datatype. -/
def ecsvColumns : List (String × EcsvType) :=
  [("ArchiveFileID", EcsvType.int64), ("fileSetName", EcsvType.str),
   ("productLevel", EcsvType.str), ("targprop", EcsvType.str),
   ("targ_ra", EcsvType.float64), ("targ_dec", EcsvType.float64),
   ("instrume", EcsvType.str), ("exp_type", EcsvType.str),
   ("opticalElements", EcsvType.str), ("date_obs", EcsvType.str),
   ("duration", EcsvType.float64), ("program", EcsvType.int64),
   ("observtn", EcsvType.int64), ("visit", EcsvType.int64),
   ("publicReleaseDate", EcsvType.str), ("pi_name", EcsvType.str),
   ("proposal_type", EcsvType.str), ("proposal_cycle", EcsvType.int64),
   ("targtype", EcsvType.str), ("access", EcsvType.str),
   ("cal_ver", EcsvType.str), ("ang_sep", EcsvType.float64),
   ("s_region", EcsvType.str)]

/-- The data rows of the ECSV fixture table, each row a list of field
values in column order; a quoted field of the file is one value here. -/
def ecsvRows : List (List String) :=
  [["184925621", "jw01979002001_02101_00001", "1b, 2a, 2b, 2c", "M-4",
    "245.9301782243485", "-26.45004099208315", "NIRCAM", "NRC_IMAGE",
    "F150W2;CLEAR, F322W2;CLEAR", "2023-04-09T20:36:40.8640000", "515.365",
    "1979", "2", "1", "2026-06-13T22:07:22", "Bedin, Luigi R.", "GO", "1",
    "FIXED", "EXCLUSIVE_ACCESS", "1.18.0", "1.9285915905156554",
    "POLYGON ICRS  245.959199687 -26.421462986 245.921398055 -26.409589788 245.907787180 -26.442832315 245.945550102 -26.455602014"],
   ["184925593", "jw01979002001_02101_00003", "1b, 2a, 2b, 2c", "M-4",
    "245.9301782241785", "-26.45004099231466", "NIRCAM", "NRC_IMAGE",
    "F150W2;CLEAR, F322W2;CLEAR", "2023-04-09T20:59:45.8860000", "515.365",
    "1979", "2", "1", "2026-06-13T22:07:21", "Bedin, Luigi R.", "GO", "1",
    "FIXED", "EXCLUSIVE_ACCESS", "1.18.0", "1.925924661804068",
    "POLYGON ICRS  245.939921182 -26.435080550 245.921459310 -26.429109475 245.914688873 -26.445503549 245.933179718 -26.451686653"],
   ["184925735", "jw01979002001_02101_00004", "1b, 2a, 2b, 2c", "M-4",
    "245.9301782241047", "-26.45004099241517", "NIRCAM", "NRC_IMAGE",
    "F150W2;CLEAR, F322W2;CLEAR", "2023-04-09T21:09:47.1660000", "515.365",
    "1979", "2", "1", "2026-06-13T22:07:53", "Bedin, Luigi R.", "GO", "1",
    "FIXED", "EXCLUSIVE_ACCESS", "1.18.0", "1.947287702735809",
    "POLYGON ICRS  245.939840356 -26.434674939 245.921378527 -26.428703918 245.914608175 -26.445098012 245.933098978 -26.451281062"],
   ["184925825", "jw01979003001_02101_00001", "1b, 2a, 2b, 2c", "M-4-shift",
    "245.9083032218765", "-26.50142988433757", "NIRCAM", "NRC_IMAGE",
    "F150W2;CLEAR, F322W2;CLEAR", "2023-04-10T02:15:28.4240000", "128.841",
    "1979", "3", "1", "2026-06-13T22:12:16", "Bedin, Luigi R.", "GO", "1",
    "FIXED", "EXCLUSIVE_ACCESS", "1.18.0", "0.0",
    "POLYGON ICRS  245.925168843 -26.512866127 245.906258830 -26.506929958 245.899561604 -26.523543382 245.918280954 -26.529682361"],
   ["184925615", "jw01979003001_02101_00002", "1b, 2a, 2b, 2c", "M-4-shift",
    "245.9083032218502", "-26.50142988437347", "NIRCAM", "NRC_IMAGE",
    "F150W2;CLEAR, F322W2;CLEAR", "2023-04-10T02:19:03.2080000", "128.841",
    "1979", "3", "1", "2026-06-13T22:07:53", "Bedin, Luigi R.", "GO", "1",
    "FIXED", "EXCLUSIVE_ACCESS", "1.18.0", "0.0",
    "POLYGON ICRS  245.924415848 -26.461091806 245.905962809 -26.455224787 245.899360402 -26.471590089 245.917786980 -26.477649446"]]

/-- C8: the ECSV fixture table declares the archive file identifier,
observation program and visit identifiers, target coordinates, exposure
metadata and the footprint polygon string column s_region among its
columns; every one of its rows supplies a nonempty value for each of the
declared columns; and every s_region value is a polygon string. -/
theorem ecsv_table_shape :
    (ecsvColumns.length = 23 ∧
      ("ArchiveFileID", EcsvType.int64) ∈ ecsvColumns ∧
      ("program", EcsvType.int64) ∈ ecsvColumns ∧
      ("observtn", EcsvType.int64) ∈ ecsvColumns ∧
      ("visit", EcsvType.int64) ∈ ecsvColumns ∧
      ("targ_ra", EcsvType.float64) ∈ ecsvColumns ∧
      ("targ_dec", EcsvType.float64) ∈ ecsvColumns ∧
      ("exp_type", EcsvType.str) ∈ ecsvColumns ∧
      ("date_obs", EcsvType.str) ∈ ecsvColumns ∧
      ("duration", EcsvType.float64) ∈ ecsvColumns ∧
      ("s_region", EcsvType.str) ∈ ecsvColumns) ∧
    (∀ row ∈ ecsvRows,
      row.length = ecsvColumns.length ∧
      (∀ f ∈ row, f ≠ "") ∧
      strContains (row.getD 22 "") "POLYGON ICRS" = true) := by
  decide

/-- The outcome of the ReadTheDocs post_checkout job: exit code 183,
which skips the documentation build, or a normal exit that lets the
build proceed. -/
inductive RtdAction where
  | skipBuild
  | proceed
  deriving DecidableEq

/-- The post_checkout job of the ReadTheDocs configuration, translated
from its shell command: the formatted latest commit message is matched
against the two substring patterns and the job exits 183 on a match. -/
def post_checkout (msg : String) : RtdAction :=
  if strContains msg "skip rtd" || strContains msg "rtd skip" then
    RtdAction.skipBuild
  else
    RtdAction.proceed

/-- C9: the documentation build is skipped, through exit code 183 of the
post_checkout job, exactly when the latest commit message contains the
substring skip rtd or the substring rtd skip; every other commit message
lets the build proceed. -/
theorem rtd_skip_iff_substring :
    ∀ msg : String,
      post_checkout msg = RtdAction.skipBuild ↔
        ("skip rtd".data <:+: msg.data ∨ "rtd skip".data <:+: msg.data) := by
  intro msg
  by_cases h : ("skip rtd".data <:+: msg.data ∨ "rtd skip".data <:+: msg.data)
  · have hb : (strContains msg "skip rtd" || strContains msg "rtd skip") = true := by
      rcases h with h1 | h1
      · simp [strContains, h1]
      · simp [strContains, h1]
    exact iff_of_true (by simp [post_checkout, hb]) h
  · have hb : (strContains msg "skip rtd" || strContains msg "rtd skip") = false := by
      rcases not_or.mp h with ⟨h1, h2⟩
      simp [strContains, h1, h2]
    refine iff_of_false ?_ h
    simp [post_checkout, hb]

end MastAladinLite
